import Mathlib

/-!
Shallow embedding of the violette-gl resource-binding layer.

The repository wraps OpenGL's global, bind-to-modify state machine.  We model a
single binding point of the driver as the raw integer identifier it currently
holds (`0` is the "nothing bound" sentinel), and each resource operation as a
pure function on that state.  Two revisions of the scoped-binding protocol are
embedded: `src/base/resource.rs` (the `ResourceExt::with_binding` helper over
plain `bind`/`unbind`) and `violette-low/src/base/bindable.rs` (the `BindGuard`
RAII guard that records and restores the previously bound identifier).
-/

namespace Violette

/-- Raw state of one driver binding point: the integer identifier currently
bound at that target.  `0` is the sentinel meaning "nothing bound". -/
abbrev BindingPoint := Nat

/-- Embeds `NonZeroU32::new` as used by the id newtypes (`BufferId::new`,
`ProgramId::new`, `VaoId::new`): `none` exactly when the raw value is zero. -/
def nonZeroNew (raw : Nat) : Option Nat :=
  if raw = 0 then none else some raw

/-! ### src revision: `src/base/resource.rs` (plain bind/unbind protocol)

Specialized at `Buffer<T, K>` (`src/buffer.rs`), whose `bind` issues
`glBindBuffer(K, id)` and whose `unbind` issues `glBindBuffer(K, 0)`.  The
other resource kinds of this revision implement `bind`/`unbind` the same way
on their own binding points. -/

namespace ResourceSrc

/-- Embeds `Buffer::bind` (src revision): `glBindBuffer(K, self.id.get())`,
so the binding point now holds this resource's identifier. -/
def bind (id : Nat) (_s : BindingPoint) : BindingPoint := id

/-- Embeds `Buffer::unbind` (src revision): `glBindBuffer(K, 0)`, resetting
the binding point to the zero sentinel regardless of what was bound before. -/
def unbind (_s : BindingPoint) : BindingPoint := 0

/-- Embeds `Buffer::current` (src revision): read the binding constant with
`glGetIntegerv` and wrap through `BufferId::new` (zero becomes `none`). -/
def current (s : BindingPoint) : Option Nat := nonZeroNew s

/-- Embeds `ResourceExt::with_binding` of `src/base/resource.rs`:
`self.bind(); let ret = cb(); #[cfg(not(feature = "no-unbind"))] self.unbind(); ret`.
The result is the binding-point state after the helper returns, under the
assumption that the callback leaves this binding point untouched.
`noUnbind` is the build-time `no-unbind` feature flag. -/
def with_binding (noUnbind : Bool) (id : Nat) (s : BindingPoint) : BindingPoint :=
  let s1 := bind id s
  if noUnbind then s1 else unbind s1

end ResourceSrc

/-! ### violette-low revision: `violette-low/src/base/bindable.rs` (BindGuard)

Specialized at `Buffer<T>` (`violette-low/src/buffer.rs`): `make_binding`
issues `glBindBuffer(kind, id)`, and `BoundBuffer::unbind(previous)` issues
`glBindBuffer(kind, previous.map(|id| id.get()).unwrap_or(0))`. -/

namespace Bindable

/-- Embeds `Buffer::current(kind)` (violette-low): `glGetIntegerv` on the
binding constant, wrapped through `BufferId::new`. -/
def current (s : BindingPoint) : Option Nat := nonZeroNew s

/-- Embeds `Buffer::make_binding`: `glBindBuffer(self.kind(), self.id.get())`. -/
def make_binding (id : Nat) (_s : BindingPoint) : BindingPoint := id

/-- Embeds `BoundBuffer::unbind(previous)`:
`glBindBuffer(kind, previous.map(|id| id.get()).unwrap_or(0))`. -/
def unbind (previous : Option Nat) (_s : BindingPoint) : BindingPoint :=
  previous.getD 0

/-- Embeds `BindableExt::bind`: build a `BindGuard` whose `previous` field is
`Self::current(self.kind())` read before `make_binding` runs.  Returns the
guard's recorded previous identifier together with the new state. -/
def bindGuard (id : Nat) (s : BindingPoint) : Option Nat × BindingPoint :=
  (current s, make_binding id s)

/-- Embeds `impl Drop for BindGuard`: unless the `no-unbind` feature is set,
call `self.binding.unbind(self.previous)`. -/
def dropGuard (noUnbind : Bool) (previous : Option Nat) (s : BindingPoint) : BindingPoint :=
  if noUnbind then s else unbind previous s

end Bindable

/-! ### Uniform-buffer element alignment (`src/buffer.rs`) -/

/-- Embeds `next_multiple(x, of)` of `src/buffer.rs`:
`let rem = x % of.get(); let offset = of.get() - rem; x + offset`.
`of` is a `NonZeroUsize` (the driver-reported
`GL_UNIFORM_BUFFER_OFFSET_ALIGNMENT`). -/
def next_multiple (x : Nat) (of : Nat) : Nat :=
  let rem := x % of
  let offset := of - rem
  x + offset

/-- Rust `RangeBounds` endpoints, as matched by `Buffer::byte_slice`. -/
inductive Bnd
  | inc (i : Nat)
  | exc (i : Nat)
  | unb
deriving DecidableEq, Repr

/-- Embeds `Buffer::byte_slice(sizeof, range)` of `src/buffer.rs`: the element
alignment is `next_multiple(sizeof, *GL_ALIGNMENT)` and both range endpoints
are scaled by it (an unbounded end uses `self.count * size_of::<T>()` before
the scaling, as in the source).  Returns `(alignment, start, end)`.
`count` is the buffer's logical element count and `align` the driver-reported
uniform-buffer offset alignment. -/
def byte_slice (count sizeof align : Nat) (lo hi : Bnd) : Nat × Nat × Nat :=
  let alignment := next_multiple sizeof align
  let start :=
    (match lo with
      | Bnd.inc i => i
      | Bnd.exc i => i + 1
      | Bnd.unb => 0) * alignment
  let stop :=
    (match hi with
      | Bnd.inc i => i + 1
      | Bnd.exc i => i
      | Bnd.unb => count * sizeof) * alignment
  (alignment, start, stop)

/-- Byte offset produced by `Buffer::at(ix)` = `self.slice(ix..=ix)`: the
start of the byte range computed by `byte_slice` for the inclusive range. -/
def at_offset (count sizeof align i : Nat) : Nat :=
  (byte_slice count sizeof align (Bnd.inc i) (Bnd.inc i)).2.1

/-- Byte offset at which `BufferSlice::set(at, value)` issues its mapped
write: `self.offset + (at * self.alignment)`. -/
def slice_set_offset (sliceOffset alignment j : Nat) : Nat :=
  sliceOffset + j * alignment

/-- Modelled from the spec words of claim C3 (for comparison with the source
definition `at_offset`): the byte offset of logical element `i` is
`i * ceil(sizeof / align) * align`, with the ceiling division written as
`(sizeof + align - 1) / align`. -/
def specByteOffset (sizeof align i : Nat) : Nat :=
  i * ((sizeof + align - 1) / align) * align

/-! ### Per-kind `current` queries and binds (src revision, for C4) -/

namespace BufferRes

/-- Embeds `impl Resource for Buffer` `current` (`src/buffer.rs`):
`glGetIntegerv(<kind binding const>, &mut id)` then `BufferId::new(id)`. -/
def current (s : BindingPoint) : Option Nat := nonZeroNew s

/-- Embeds `Buffer::bind`: `glBindBuffer(K, self.id.get())`. -/
def bind (id : Nat) (_s : BindingPoint) : BindingPoint := id

end BufferRes

namespace TextureRes

/-- Embeds `impl Resource for Texture` `current` (`src/texture.rs`): the
implementation body is literally `None`; the driver binding point is never
queried. -/
def current (_s : BindingPoint) : Option Nat := none

/-- Embeds `Texture::bind`: `glBindTexture(self.id.target.gl_target(), self.id.get())`. -/
def bind (id : Nat) (_s : BindingPoint) : BindingPoint := id

end TextureRes

namespace ProgramRes

/-- Embeds `impl Resource for Program` `current` (`src/program.rs`):
`glGetIntegerv(GL_CURRENT_PROGRAM, ...)` then `ProgramId::new(id)`. -/
def current (s : BindingPoint) : Option Nat := nonZeroNew s

/-- Embeds `Program::bind`: `glUseProgram(self.id.get())`. -/
def bind (id : Nat) (_s : BindingPoint) : BindingPoint := id

end ProgramRes

namespace FramebufferRes

/-- Embeds `impl Resource for Framebuffer` `current` (`src/framebuffer.rs`):
`glGetIntegerv(GL_FRAMEBUFFER_BINDING, ...)` then `Some(FramebufferId(id))` —
`FramebufferId` admits zero (the backbuffer), so the result is always `some`. -/
def current (s : BindingPoint) : Option Nat := some s

/-- Embeds `Framebuffer::bind`: `glBindFramebuffer(GL_FRAMEBUFFER, self.id.0)`. -/
def bind (id : Nat) (_s : BindingPoint) : BindingPoint := id

/-- Embeds `Framebuffer::unbind`: a no-op for the backbuffer (identifier 0),
otherwise `glBindFramebuffer(GL_FRAMEBUFFER, 0)`. -/
def unbind (id : Nat) (s : BindingPoint) : BindingPoint :=
  if id = 0 then s else 0

end FramebufferRes

namespace VertexArrayRes

/-- Embeds `impl Resource for VertexArray` `current` (`src/vertex.rs`):
`glGetIntegerv(GL_VERTEX_ARRAY_BINDING, ...)` then `VaoId::new(id)`. -/
def current (s : BindingPoint) : Option Nat := nonZeroNew s

/-- Embeds `VertexArray::bind`: `glBindVertexArray(self.id.get())`. -/
def bind (id : Nat) (_s : BindingPoint) : BindingPoint := id

end VertexArrayRes

/-! ### Driver error polling (`src/utils.rs`) -/

/-- Embeds the `GlError` enum of `src/utils.rs` (the native error codes read
back from `glGetError`). -/
inductive GlError
  | invalidEnum
  | invalidValue
  | invalidOperation
  | stackOverflow
  | stackUnderflow
  | outOfMemory
  | invalidFramebufferOperation
  | contextLost
deriving DecidableEq, Repr

/-- Display strings of `GlError` as given by its `#[error(...)]` attributes. -/
def GlError.message : GlError → String
  | GlError.invalidEnum => "Provided enum value is not valid"
  | GlError.invalidValue => "Provided value is not valid"
  | GlError.invalidOperation => "Invalid OpenGL operation"
  | GlError.stackOverflow => "Stack Overflow"
  | GlError.stackUnderflow => "Stack Underflow"
  | GlError.outOfMemory => "Out of memory"
  | GlError.invalidFramebufferOperation => "Invalid OpenGL operation on the framebuffer"
  | GlError.contextLost => "Context lost"

/-- Embeds `gl_error()` of `src/utils.rs`: poll the driver's error flag
(`pending` is the error the driver would report, `none` for `GL_NO_ERROR`)
and wrap a pending error into the formatted eyre message. -/
def gl_error (pending : Option GlError) : Except String Unit :=
  match pending with
  | some e => Except.error ("OpenGL Error: " ++ e.message ++ " (check debug log for more details)")
  | none => Except.ok ()

/-- Embeds `gl_error_guard(run)`: run the driver call (its pure result is
`ret`), then poll `gl_error()`, failing if an error was recorded. -/
def gl_error_guard {α : Type} (pending : Option GlError) (ret : α) : Except String α :=
  match gl_error pending with
  | Except.error e => Except.error e
  | Except.ok _ => Except.ok ret

/-! ### Texture state (`src/texture.rs`) -/

/-- Embeds the `Dimension` enum of `src/texture.rs`. -/
inductive Dimension
  | d1
  | d1Array
  | d2
  | d2Array
  | d3
deriving DecidableEq, Repr

/-- Embeds the mutable state of `Texture<F>`: extents (each a `NonZeroU32`,
so theorems assume them positive), target dimension, sample count and the
`has_mipmaps` flag.  The pixel format `F` is type-level in the source; its
channel count is passed to the operations that need it. -/
structure Tex where
  width : Nat
  height : Nat
  depth : Nat
  dim : Dimension
  samples : Nat
  has_mipmaps : Bool
deriving DecidableEq, Repr

/-- Embeds `TextureTarget::is_multisample`: `self.samples.get() > 1`. -/
def Tex.is_multisample (t : Tex) : Bool := 1 < t.samples

/-- Embeds `Texture::num_mipmaps`:
`1 + if has_mipmaps { f32::log2(width.max(height).max(depth) as f32).floor() } else { 0 }`.
The source computes the floor of the base-2 logarithm in `f32`; it is embedded
as `Nat.log2`, the exact floor of the real logarithm, which agrees with the
`f32` computation for all extents small enough that the `u32 -> f32` cast and
the rounding of `log2f` are exact (far beyond any driver's texture limits). -/
def Tex.num_mipmaps (t : Tex) : Nat :=
  let n := if t.has_mipmaps then Nat.log2 (max (max t.width t.height) t.depth) else 0
  1 + n

/-- Embeds `Texture::generate_mipmaps`: `glGenerateMipmap` inside
`gl_error_guard` (propagated with `?`), then `has_mipmaps.store(true)`. -/
def Tex.generate_mipmaps (t : Tex) (pending : Option GlError) : Except String Tex :=
  match gl_error_guard pending () with
  | Except.error e => Except.error e
  | Except.ok _ => Except.ok (Tex.mk t.width t.height t.depth t.dim t.samples true)

/-- Embeds `Texture::set_data(data)`: bail on empty data; validate
`width * height * channelCount == data.len()` (the source checks exactly this
product — the commented-out original line also multiplied by `depth`); then
dispatch on `(dimension, multisample)`: the two `D2` arms issue the driver
upload call under `gl_error_guard`, every other dimension hits `todo!()`
(modelled as an error with the panic's message); on upload success call
`generate_mipmaps` (propagated with `?`).  Returns the result together with a
flag recording whether the driver upload call was issued. -/
def Tex.set_data (t : Tex) (channelCount dataLen : Nat)
    (uploadErr mipErr : Option GlError) : Except String Tex × Bool :=
  if dataLen = 0 then (Except.error "Cannot set empty data", false)
  else if t.width * t.height * channelCount = dataLen then
    match t.dim with
    | Dimension.d2 =>
      (match gl_error_guard uploadErr () with
        | Except.error e => (Except.error e, true)
        | Except.ok _ =>
          match t.generate_mipmaps mipErr with
          | Except.error e => (Except.error e, true)
          | Except.ok t1 => (Except.ok t1, true))
    | _ => (Except.error "not yet implemented", false)
  else (Except.error "Data length has to match the extents of the texture", false)

/-! ### Buffer upload (`src/buffer.rs`, for C9) -/

/-- Embeds the mutable state of `Buffer<T, K>`: the logical element count. -/
structure Buf where
  count : Nat
deriving DecidableEq, Repr

/-- Embeds `Buffer::len`: returns `self.count`. -/
def Buf.len (b : Buf) : Nat := b.count

/-- Embeds `Buffer::set(data, usage_hint)`: bind; build the byte vector
(uniform kinds pad every element to `next_multiple(size_of::<T>(), alignment)`
bytes, other kinds cast the slice directly); assign `self.count = data.len()`;
issue `glBufferData` under `gl_error_guard`, propagating a driver error with
`?` (which also skips the trailing unbind); otherwise unbind and return `Ok`.
Returns the updated buffer state and the call's result. -/
def Buf.set (b : Buf) (isUniform : Bool) (sizeof align dataLen : Nat)
    (uploadErr : Option GlError) : Buf × Except String Unit :=
  let bytesLen := if isUniform then dataLen * next_multiple sizeof align else dataLen * sizeof
  let b1 := Buf.mk dataLen
  match gl_error_guard uploadErr bytesLen with
  | Except.error e => (b1, Except.error e)
  | Except.ok _ => (b1, Except.ok ())

/-! ### Program uniforms and attributes (`src/program.rs`) -/

/-- Embeds `UniformLocation`: the owning program's identifier and the raw
uniform location (the `desc` field is driver-derived metadata, omitted). -/
structure UniformLocation where
  program : Nat
  location : Nat
deriving DecidableEq, Repr

/-- Embeds `UniformLocation::is_in_program`: `self.program == program.id`. -/
def UniformLocation.is_in_program (l : UniformLocation) (programId : Nat) : Bool :=
  l.program == programId

/-- Embeds `Program::uniform(name)`: `glGetUniformLocation` yields `rawLoc`
(`-1` when the name is not an active uniform); the source returns `Some`
exactly when `location >= 0`. -/
def uniformLookup (programId : Nat) (rawLoc : Int) : Option UniformLocation :=
  if 0 ≤ rawLoc then some (UniformLocation.mk programId rawLoc.toNat) else none

/-- Embeds `Program::attribute(name)` (named `attributeLookup` here because
`attribute` is a Lean keyword): `glGetAttribLocation` under `gl_error_guard`
yields `rawLoc` (`-1` when the name is not an active attribute), then
`ensure!(attr > 0, "Attribute does not exist")` — a strict comparison — before
building the `AttributeDesc` (embedded as the program id and the location). -/
def attributeLookup (programId : Nat) (rawLoc : Int) (pending : Option GlError) :
    Except String (Nat × Nat) :=
  match gl_error_guard pending rawLoc with
  | Except.error e => Except.error e
  | Except.ok l =>
    if 0 < l then Except.ok (programId, l.toNat)
    else Except.error "Attribute does not exist"

/-- Embeds `Program::set_uniform(location, value)`: bail when
`self.id != location.program`; otherwise issue the native uniform write under
`with_binding` and `gl_error_guard`.  Returns the result and a flag recording
whether the uniform write driver call was issued. -/
def set_uniform (programId : Nat) (loc : UniformLocation) (writeErr : Option GlError) :
    Except String Unit × Bool :=
  if programId = loc.program then (gl_error_guard writeErr (), true)
  else
    (Except.error ("Cannot set uniform for program " ++ toString programId ++
      " as the uniform location is for program " ++ toString loc.program), false)

/-! ### Call-order traces of the two `with_binding` helpers (for C2) -/

/-- Driver-visible events of one run of a scoped binding helper: the bind
call, the invocation of the caller-supplied operation, and the unbind call. -/
inductive Ev
  | bindEv
  | callEv
  | unbindEv
deriving DecidableEq, Repr

/-- Event trace of `ResourceExt::with_binding` in `src/base/resource.rs`:
`self.bind(); let ret = cb(); #[cfg(not(feature = "no-unbind"))] self.unbind();`.
`noUnbind` is the `no-unbind` feature flag. -/
def with_binding_trace_src (noUnbind : Bool) : List Ev :=
  [Ev.bindEv, Ev.callEv] ++ (if noUnbind then [] else [Ev.unbindEv])

/-- Event trace of `ResourceExt::with_binding` in
`violette-low/src/base/resource.rs`:
`self.bind(); #[cfg(not(feature = "no-unbind"))] self.unbind(); cb()` —
the unbind statement sits before the callback invocation. -/
def with_binding_trace_low (noUnbind : Bool) : List Ev :=
  [Ev.bindEv] ++ (if noUnbind then [] else [Ev.unbindEv]) ++ [Ev.callEv]

/-- The ordering the claim describes for a scoped-binding trace: the bind
event comes first, then the callback invocation, and the unbind (when the
`no-unbind` feature is off) only after the callback; with the feature on,
only the unbind is dropped. -/
def claimedOrder (noUnbind : Bool) (t : List Ev) : Prop :=
  t = [Ev.bindEv, Ev.callEv] ++ (if noUnbind then [] else [Ev.unbindEv])

instance (noUnbind : Bool) (t : List Ev) : Decidable (claimedOrder noUnbind t) := by
  unfold claimedOrder; infer_instance

end Violette

/-! ## Theorems -/

open Violette

/-- C1 (counterexample): with identifier 1 bound (resource A) and the
`no-unbind` feature off, running the src revision's scoped helper
`with_binding` for resource B (identifier 2) leaves the binding point at the
zero sentinel, not at A's identifier 1. -/
theorem C1_with_binding_src_drops_previous :
    ResourceSrc.with_binding false 2 1 = 0 ∧ ResourceSrc.with_binding false 2 1 ≠ 1 := by
  constructor
  · rfl
  · decide

/-- C1 (amended): binding B inside A's scope and releasing B restores A's
identifier when B is bound via the violette-low `BindGuard` (the guard records
the previous identifier at bind time and rebinds it on drop), for every prior
state; whereas the src revision's `with_binding` helper always leaves the
binding point at the zero sentinel. -/
theorem C1_nested_binding_restore (a b : Nat) :
    Bindable.dropGuard false (Bindable.bindGuard b a).1 (Bindable.bindGuard b a).2 = a
      ∧ ResourceSrc.with_binding false b a = 0 := by
  constructor
  · unfold Bindable.dropGuard Bindable.bindGuard Bindable.unbind Bindable.current
      Bindable.make_binding nonZeroNew
    by_cases h : a = 0 <;> simp [h]
  · rfl

/-- C2: in the violette-low revision, `ResourceExt::with_binding` with the
`no-unbind` feature off issues bind, then unbind, and only then invokes the
caller-supplied operation — the callback runs with nothing bound, so the
claimed order (unbind only after the callback returns) does not hold.  The
src revision's helper does satisfy the claimed order for both feature
settings. -/
theorem C2_with_binding_low_unbinds_before_callback :
    with_binding_trace_low false = [Ev.bindEv, Ev.unbindEv, Ev.callEv]
      ∧ ¬ claimedOrder false (with_binding_trace_low false)
      ∧ claimedOrder false (with_binding_trace_src false)
      ∧ claimedOrder true (with_binding_trace_src true) := by
  refine ⟨rfl, by decide, rfl, rfl⟩

/-- C3 (counterexample): with the driver alignment 256 and element size 256,
the byte offset of element 1 produced by `Buffer::at`/`byte_slice` is 512,
while the spec formula `i * ceil(s / alignment) * alignment` gives 256;
moreover no positive alignment value makes the spec formula agree with the
code for every positive element size (it always fails at `s = alignment`). -/
theorem C3_uniform_offset_counterexample :
    at_offset 3 256 256 1 = 512 ∧ specByteOffset 256 256 1 = 256
      ∧ ¬ ∃ a, 0 < a ∧ ∀ s i, 0 < s → at_offset 3 s a i = specByteOffset s a i := by
  refine ⟨by decide, by decide, ?_⟩
  rintro ⟨a, ha, h⟩
  have h1 := h a 1 ha
  have hm : a % a = 0 := Nat.mod_self a
  have hd : (a + a - 1) / a = 1 := by
    have h2 : a + a - 1 = (a - 1) + a := by omega
    rw [h2, Nat.add_div_right _ ha, Nat.div_eq_of_lt (by omega)]
  simp [at_offset, byte_slice, next_multiple, specByteOffset, hm, hd] at h1
  omega

/-- C3 (amended): for alignment 256 and every element size `s > 0`, the byte
offset of logical element `i` produced by `Buffer::at`/`Buffer::slice` equals
`i * ((s / 256 + 1) * 256)` — `i` times the smallest multiple of the alignment
strictly greater than `s` — and the mapped element write of
`BufferSlice::set(j, v)` on that slice lands at `(i + j)` times the same
stride; this agrees with the claim's `i * ceil(s / 256) * 256` exactly when
256 does not divide `s`. -/
theorem C3_uniform_offset (count s i j : Nat) (hs : 0 < s) :
    at_offset count s 256 i = i * ((s / 256 + 1) * 256)
      ∧ slice_set_offset (at_offset count s 256 i) (next_multiple s 256) j
          = (i + j) * ((s / 256 + 1) * 256)
      ∧ (¬ (256 ∣ s) → at_offset count s 256 i = specByteOffset s 256 i) := by
  have hnm : next_multiple s 256 = (s / 256 + 1) * 256 := by
    show s + (256 - s % 256) = (s / 256 + 1) * 256
    omega
  have hat : at_offset count s 256 i = i * ((s / 256 + 1) * 256) := by
    simp [at_offset, byte_slice, hnm]
  refine ⟨hat, ?_, ?_⟩
  · simp only [slice_set_offset, hat, hnm]; ring
  · intro hnd
    have hmod : s % 256 ≠ 0 := fun h0 => hnd (Nat.dvd_of_mod_eq_zero h0)
    have hceil : (s + 256 - 1) / 256 = s / 256 + 1 := by omega
    simp only [specByteOffset]
    rw [hceil, hat]; ring

/-- C3 (witness): instantiation of the amended offset statement at element
size 16, slice index 2, inner write index 1. -/
theorem C3_uniform_offset_witness :
    0 < 16 ∧ (at_offset 3 16 256 2 = 2 * ((16 / 256 + 1) * 256)
      ∧ slice_set_offset (at_offset 3 16 256 2) (next_multiple 16 256) 1
          = (2 + 1) * ((16 / 256 + 1) * 256)
      ∧ (¬ (256 ∣ 16) → at_offset 3 16 256 2 = specByteOffset 16 256 2)) :=
  ⟨by decide, C3_uniform_offset 3 16 2 1 (by decide)⟩

/-- C4 (counterexample): after binding a texture with identifier 5,
`Texture::current()` still returns `None` rather than the texture's own
identifier; and on a clean context (raw binding 0), `Framebuffer::current()`
returns `Some(FramebufferId(0))` rather than `None`. -/
theorem C4_current_counterexample :
    TextureRes.current (TextureRes.bind 5 0) ≠ some 5
      ∧ FramebufferRes.current 0 ≠ none := by
  constructor <;> decide

/-- C4 (amended): for the buffer, program and vertex-array kinds, binding a
resource with non-zero identifier `n` makes the kind's `current` query return
`some n`, and on a clean context it returns `none`; for textures, `current`
returns `none` unconditionally even while bound; for framebuffers, `current`
on a clean context returns `some 0` (the backbuffer identifier), never
`none`. -/
theorem C4_current_per_kind (n : Nat) (hn : n ≠ 0) :
    BufferRes.current (BufferRes.bind n 0) = some n
      ∧ ProgramRes.current (ProgramRes.bind n 0) = some n
      ∧ VertexArrayRes.current (VertexArrayRes.bind n 0) = some n
      ∧ BufferRes.current 0 = none
      ∧ ProgramRes.current 0 = none
      ∧ VertexArrayRes.current 0 = none
      ∧ TextureRes.current (TextureRes.bind n 0) = none
      ∧ FramebufferRes.current 0 = some 0 := by
  simp [BufferRes.current, BufferRes.bind, ProgramRes.current, ProgramRes.bind,
    VertexArrayRes.current, VertexArrayRes.bind, TextureRes.current,
    FramebufferRes.current, nonZeroNew, hn]

/-- C4 (witness): instantiation of the per-kind current-query statement at
identifier 7. -/
theorem C4_current_per_kind_witness :
    (7 : Nat) ≠ 0 ∧ (BufferRes.current (BufferRes.bind 7 0) = some 7
      ∧ ProgramRes.current (ProgramRes.bind 7 0) = some 7
      ∧ VertexArrayRes.current (VertexArrayRes.bind 7 0) = some 7
      ∧ BufferRes.current 0 = none
      ∧ ProgramRes.current 0 = none
      ∧ VertexArrayRes.current 0 = none
      ∧ TextureRes.current (TextureRes.bind 7 0) = none
      ∧ FramebufferRes.current 0 = some 0) :=
  ⟨by decide, C4_current_per_kind 7 (by decide)⟩

/-- Characterization of `Nat.log2` as the floor of the base-2 logarithm, used
to state the mipmap-count results non-circularly. -/
theorem two_pow_log2_le_and_lt (M : Nat) (hM : M ≠ 0) :
    2 ^ Nat.log2 M ≤ M ∧ M < 2 ^ (Nat.log2 M + 1) := by
  rw [Nat.log2_eq_log_two]
  exact ⟨Nat.pow_log_le_self 2 hM, Nat.lt_pow_succ_log_self one_lt_two M⟩

/-- C5: after `generate_mipmaps` succeeds, the has-mipmaps flag is set and
`num_mipmaps` returns `1 + floor(log2(max(width, height, depth)))` — the
value `k + 1` with `2 ^ k ≤ max(width, height, depth) < 2 ^ (k + 1)`; in
particular a 4×4×1 texture reports 3 mipmap levels. -/
theorem C5_num_mipmaps (t t1 : Tex) (hw : 1 ≤ t.width) (hh : 1 ≤ t.height)
    (hd : 1 ≤ t.depth) (hok : t.generate_mipmaps none = Except.ok t1) :
    t1.has_mipmaps = true
      ∧ t1.num_mipmaps = 1 + Nat.log2 (max (max t1.width t1.height) t1.depth)
      ∧ 2 ^ (t1.num_mipmaps - 1) ≤ max (max t1.width t1.height) t1.depth
      ∧ max (max t1.width t1.height) t1.depth < 2 ^ t1.num_mipmaps
      ∧ (Tex.mk 4 4 1 Dimension.d2 1 true).num_mipmaps = 3 := by
  have ht1 : t1 = Tex.mk t.width t.height t.depth t.dim t.samples true := by
    simp [Tex.generate_mipmaps, gl_error_guard, gl_error] at hok
    exact hok.symm
  subst ht1
  have hM : max (max t.width t.height) t.depth ≠ 0 := by
    have h1 : 1 ≤ max (max t.width t.height) t.depth :=
      hw.trans ((le_max_left _ _).trans (le_max_left _ _))
    omega
  have hchar := two_pow_log2_le_and_lt _ hM
  have h4 : Nat.log2 4 = 2 := by
    rw [Nat.log2_eq_log_two]
    exact Nat.log_eq_of_pow_le_of_lt_pow (by norm_num) (by norm_num)
  refine ⟨rfl, rfl, ?_, ?_, ?_⟩
  · simpa [Tex.num_mipmaps] using hchar.1
  · simpa [Tex.num_mipmaps, Nat.add_comm] using hchar.2
  · simp [Tex.num_mipmaps, h4]

/-- C5 (witness): instantiation at the 4×4×1 texture of the claim. -/
theorem C5_num_mipmaps_witness :
    (1 ≤ (Tex.mk 4 4 1 Dimension.d2 1 false).width
      ∧ 1 ≤ (Tex.mk 4 4 1 Dimension.d2 1 false).height
      ∧ 1 ≤ (Tex.mk 4 4 1 Dimension.d2 1 false).depth
      ∧ (Tex.mk 4 4 1 Dimension.d2 1 false).generate_mipmaps none
          = Except.ok (Tex.mk 4 4 1 Dimension.d2 1 true))
      ∧ ((Tex.mk 4 4 1 Dimension.d2 1 true).has_mipmaps = true
        ∧ (Tex.mk 4 4 1 Dimension.d2 1 true).num_mipmaps
            = 1 + Nat.log2 (max (max (Tex.mk 4 4 1 Dimension.d2 1 true).width
                (Tex.mk 4 4 1 Dimension.d2 1 true).height)
                (Tex.mk 4 4 1 Dimension.d2 1 true).depth)
        ∧ 2 ^ ((Tex.mk 4 4 1 Dimension.d2 1 true).num_mipmaps - 1)
            ≤ max (max (Tex.mk 4 4 1 Dimension.d2 1 true).width
                (Tex.mk 4 4 1 Dimension.d2 1 true).height)
                (Tex.mk 4 4 1 Dimension.d2 1 true).depth
        ∧ max (max (Tex.mk 4 4 1 Dimension.d2 1 true).width
              (Tex.mk 4 4 1 Dimension.d2 1 true).height)
              (Tex.mk 4 4 1 Dimension.d2 1 true).depth
            < 2 ^ (Tex.mk 4 4 1 Dimension.d2 1 true).num_mipmaps
        ∧ (Tex.mk 4 4 1 Dimension.d2 1 true).num_mipmaps = 3) :=
  ⟨⟨by decide, by decide, by decide, rfl⟩,
    C5_num_mipmaps (Tex.mk 4 4 1 Dimension.d2 1 false) (Tex.mk 4 4 1 Dimension.d2 1 true)
      (by decide) (by decide) (by decide) rfl⟩

/-- C6: the data-length validation of `Texture::set_data` checks
`width * height * channelCount` and ignores `depth` (the commented-out
original line and the error message both refer to all extents): for a
2×2×2 texture with 4 channels, data of length 32 = 2·2·2·4 — the length the
claim says must be accepted — is rejected with the descriptive error and no
upload call, while data of length 16 = 2·2·4 ≠ 2·2·2·4 passes validation and
the upload is issued. -/
theorem C6_set_data_depth_ignored :
    (Tex.set_data (Tex.mk 2 2 2 Dimension.d2 1 false) 4 32 none none).1
        = Except.error "Data length has to match the extents of the texture"
      ∧ (Tex.set_data (Tex.mk 2 2 2 Dimension.d2 1 false) 4 32 none none).2 = false
      ∧ 2 * 2 * 2 * 4 = 32
      ∧ (Tex.set_data (Tex.mk 2 2 2 Dimension.d2 1 false) 4 16 none none).2 = true
      ∧ 2 * 2 * 2 * 4 ≠ 16 :=
  ⟨rfl, rfl, rfl, rfl, by decide⟩

/-- C7: `Program::attribute` requires the raw location to be strictly
positive (`ensure!(attr > 0)`), so an existing attribute at location 0 is
rejected with the error "Attribute does not exist", and an absent attribute
(raw location −1) produces that error rather than an empty result; uniform
lookup, by contrast, accepts location 0 and yields `None` for an absent
name. -/
theorem C7_attribute_lookup_strict :
    attributeLookup 1 0 none = Except.error "Attribute does not exist"
      ∧ attributeLookup 1 (-1) none = Except.error "Attribute does not exist"
      ∧ uniformLookup 1 0 = some (UniformLocation.mk 1 0)
      ∧ uniformLookup 1 (-1) = none :=
  ⟨rfl, rfl, rfl, rfl⟩

/-- C8: calling `set_uniform` on program `p` with a uniform-location handle
recorded for a different program `q` fails with the descriptive error and
never issues the uniform write; in general the write is issued exactly when
the handle's recorded program identifier equals the called program's
identifier, matching `UniformLocation::is_in_program`. -/
theorem C8_set_uniform_program_guard (p q : Nat) (loc : UniformLocation)
    (writeErr : Option GlError) (hq : loc.program = q) (hne : p ≠ q) :
    (set_uniform p loc writeErr).2 = false
      ∧ (set_uniform p loc writeErr).1
          = Except.error ("Cannot set uniform for program " ++ toString p ++
              " as the uniform location is for program " ++ toString loc.program)
      ∧ loc.is_in_program p = false
      ∧ (∀ pid : Nat, ∀ l : UniformLocation, ∀ e : Option GlError,
          ((set_uniform pid l e).2 = true ↔ l.program = pid)) := by
  subst hq
  refine ⟨?_, ?_, ?_, ?_⟩
  · simp [set_uniform, hne]
  · simp [set_uniform, hne]
  · simp only [UniformLocation.is_in_program, beq_eq_false_iff_ne, ne_eq]
    omega
  · intro pid l e
    by_cases h : pid = l.program
    · simp [set_uniform, h]
    · simp [set_uniform, h, Ne.symm h]

/-- C8 (witness): instantiation at programs 1 and 2 with a handle recorded
for program 2 at location 3. -/
theorem C8_set_uniform_program_guard_witness :
    ((UniformLocation.mk 2 3).program = 2 ∧ (1 : Nat) ≠ 2)
      ∧ ((set_uniform 1 (UniformLocation.mk 2 3) none).2 = false
        ∧ (set_uniform 1 (UniformLocation.mk 2 3) none).1
            = Except.error ("Cannot set uniform for program " ++ toString (1 : Nat) ++
                " as the uniform location is for program "
                  ++ toString (UniformLocation.mk 2 3).program)
        ∧ (UniformLocation.mk 2 3).is_in_program 1 = false
        ∧ (∀ pid : Nat, ∀ l : UniformLocation, ∀ e : Option GlError,
            ((set_uniform pid l e).2 = true ↔ l.program = pid))) :=
  ⟨⟨rfl, by decide⟩,
    C8_set_uniform_program_guard 1 2 (UniformLocation.mk 2 3) none rfl (by decide)⟩

/-- C9: `Buffer::set` assigns the new logical element count before issuing
the fallible driver upload, so after the call `len()` equals the uploaded
slice's length whether the driver reported an error or not; the call itself
succeeds exactly when the driver reported no error. -/
theorem C9_set_updates_count_even_on_error (b : Buf) (isUniform : Bool)
    (sizeof align dataLen : Nat) (uploadErr : Option GlError) :
    (Buf.set b isUniform sizeof align dataLen uploadErr).1.len = dataLen
      ∧ ((Buf.set b isUniform sizeof align dataLen uploadErr).2 = Except.ok ()
          ↔ uploadErr = none) := by
  cases uploadErr <;> simp [Buf.set, Buf.len, gl_error_guard, gl_error]

/-- C10: every successful `set_data` also generates mipmaps: when the call
returns `Ok`, the has-mipmaps flag is set and `num_mipmaps` reports the full
chain `1 + floor(log2(max(width, height, depth)))`, characterized by
`2 ^ k ≤ max < 2 ^ (k + 1)`, without any explicit `generate_mipmaps` call by
the caller. -/
theorem C10_set_data_sets_mipmaps (t t1 : Tex) (channelCount dataLen : Nat)
    (uploadErr mipErr : Option GlError)
    (hw : 1 ≤ t.width) (hh : 1 ≤ t.height) (hd : 1 ≤ t.depth)
    (hok : (t.set_data channelCount dataLen uploadErr mipErr).1 = Except.ok t1) :
    t1.has_mipmaps = true
      ∧ t1.num_mipmaps = 1 + Nat.log2 (max (max t1.width t1.height) t1.depth)
      ∧ 2 ^ (t1.num_mipmaps - 1) ≤ max (max t1.width t1.height) t1.depth
      ∧ max (max t1.width t1.height) t1.depth < 2 ^ t1.num_mipmaps := by
  rcases t with ⟨w, hgt, d, dim, smp, hm⟩
  have ht1 : t1 = Tex.mk w hgt d dim smp true := by
    unfold Tex.set_data at hok
    split at hok
    · simp at hok
    · split at hok
      · cases dim <;> cases uploadErr <;> cases mipErr <;>
          simp_all [Tex.generate_mipmaps, gl_error_guard, gl_error]
      · simp at hok
  subst ht1
  have hM : max (max w hgt) d ≠ 0 := by
    have h1 : 1 ≤ max (max w hgt) d :=
      le_trans hw ((le_max_left _ _).trans (le_max_left _ _))
    omega
  have hchar := two_pow_log2_le_and_lt _ hM
  refine ⟨rfl, rfl, ?_, ?_⟩
  · simpa [Tex.num_mipmaps] using hchar.1
  · simpa [Tex.num_mipmaps, Nat.add_comm] using hchar.2

/-- C10 (witness): instantiation at a 4×4×1 four-channel texture uploaded
with 64 subpixels and a clean driver. -/
theorem C10_set_data_sets_mipmaps_witness :
    (1 ≤ (Tex.mk 4 4 1 Dimension.d2 1 false).width
      ∧ 1 ≤ (Tex.mk 4 4 1 Dimension.d2 1 false).height
      ∧ 1 ≤ (Tex.mk 4 4 1 Dimension.d2 1 false).depth
      ∧ ((Tex.mk 4 4 1 Dimension.d2 1 false).set_data 4 64 none none).1
          = Except.ok (Tex.mk 4 4 1 Dimension.d2 1 true))
      ∧ ((Tex.mk 4 4 1 Dimension.d2 1 true).has_mipmaps = true
        ∧ (Tex.mk 4 4 1 Dimension.d2 1 true).num_mipmaps
            = 1 + Nat.log2 (max (max (Tex.mk 4 4 1 Dimension.d2 1 true).width
                (Tex.mk 4 4 1 Dimension.d2 1 true).height)
                (Tex.mk 4 4 1 Dimension.d2 1 true).depth)
        ∧ 2 ^ ((Tex.mk 4 4 1 Dimension.d2 1 true).num_mipmaps - 1)
            ≤ max (max (Tex.mk 4 4 1 Dimension.d2 1 true).width
                (Tex.mk 4 4 1 Dimension.d2 1 true).height)
                (Tex.mk 4 4 1 Dimension.d2 1 true).depth
        ∧ max (max (Tex.mk 4 4 1 Dimension.d2 1 true).width
              (Tex.mk 4 4 1 Dimension.d2 1 true).height)
              (Tex.mk 4 4 1 Dimension.d2 1 true).depth
            < 2 ^ (Tex.mk 4 4 1 Dimension.d2 1 true).num_mipmaps) :=
  ⟨⟨by decide, by decide, by decide, rfl⟩,
    C10_set_data_sets_mipmaps (Tex.mk 4 4 1 Dimension.d2 1 false)
      (Tex.mk 4 4 1 Dimension.d2 1 true) 4 64 none none
      (by decide) (by decide) (by decide) rfl⟩
